import Mathlib

/-!
Shallow embedding of the tt3d procedural world-build engine
(`src/core/procedural_engine.py`, class `ProceduralEngine`) together with the
slice of the data model it consumes (`src/app/schemas.py`).

Conventions of the embedding:
* Python floats are modelled as exact rationals (`ℚ`); decimal literals of the
  source (`0.3`, `0.4`, `1e-6`, …) become the exact rationals they denote.
* The external numeric collaborators of the engine are explicit deterministic
  function parameters gathered in one `ExternalFns` record: the `noise`
  package's `pnoise2`, the draws of the seeded `random.Random` stream
  (`randU` for `random()`, `randIntAt` for `randint`), `math.cos`/`math.sin`/
  `math.sqrt`, the float constant `2*math.pi`, and shapely's buffered-corridor
  membership test `line.buffer(width, cap_style=2, join_style=2).contains(pt)`.
  Each is a pure function, exactly as each of those libraries is deterministic
  in its inputs; the `random.Random(seed)` stream is modelled as the function
  `randU seed i` = the i-th draw of the generator created from `seed`.
* The height grid (a numpy `float32` array in the source) is modelled as a
  total function `ℕ → ℕ → ℚ` of the row/col index; the source reads and
  writes it only at indices below the grid resolution.
* The in-place mutation of the height grid by `_carve_spline` is modelled by
  returning the pointwise-updated grid.
-/

namespace TT3D

/-- An `(x, y, z)` triple of the source. -/
abbrev Vec3 := ℚ × ℚ × ℚ

/-- `app/schemas.py` `TerrainNoise` (the numeric fields the engine reads).
Pydantic bounds: `seed ≥ 0`, `1 ≤ octaves ≤ 10`, `frequency > 0.0001`,
`amplitude > 0`, `elevation_scale > 0.1`, `-500 ≤ base_height ≤ 1500`. -/
structure TerrainNoise where
  seed : ℤ
  octaves : ℕ
  frequency : ℚ
  amplitude : ℚ
  lacunarity : ℚ
  persistence : ℚ
  elevation_scale : ℚ
  base_height : ℚ

/-- `app/schemas.py` `SplineRule`; `kind` is `"road"` or `"river"`. -/
structure SplineRule where
  name : String
  kind : String
  control_points : List Vec3
  width : ℚ
  depth : ℚ
  material : String

/-- `app/schemas.py` `ObjectPlacementRule`; pydantic bounds include
`1 ≤ count ≤ 200` and `10 < scatter_radius ≤ 2000`. -/
structure ObjectPlacementRule where
  kind : String
  count : ℕ
  scale_range : ℚ × ℚ
  height_range : ℚ × ℚ
  scatter_radius : ℚ
  cluster : Bool

/-- `app/schemas.py` `VegetationRule`; pydantic bounds:
`0 ≤ density_per_km2 ≤ 5000`, `0.5 < max_height ≤ 60`. -/
structure VegetationRule where
  density_per_km2 : ℚ
  species : List String
  max_height : ℚ

/-- `app/schemas.py` `WorldSchema`, restricted to the fields
`ProceduralEngine` reads (lighting/sky are consumed by rendering-side
collaborators only). -/
structure WorldSchema where
  biome : String
  terrain_type : String
  scale_km : ℚ
  heightmap : TerrainNoise
  terrain_features : List String
  object_rules : List ObjectPlacementRule
  splines : List SplineRule
  vegetation : VegetationRule

/-- `app/schemas.py` `WorldLayoutObject`. -/
structure WorldLayoutObject where
  name : String
  position : Vec3
  scale : Vec3
  kind : String
  material : String

/-- `app/schemas.py` `WorldLayout`. -/
structure WorldLayout where
  terrain_bounds_m : ℚ × ℚ
  objects : List WorldLayoutObject
  splines : List SplineRule
  vegetation_count : ℕ

/-- `procedural_engine.py` `MeshAsset`.  The `trimesh.Trimesh` payload is
modelled by the data the engine itself computes for it: explicit vertex and
face lists where the source builds them explicitly (terrain, spline ribbons),
and the placement transform (translation target and scale) applied to the
parametric primitive solids (structures, vegetation), whose interior
triangulation is produced by the external `trimesh.creation` calls.
`color` is the RGBA `vertex_colors` value assigned to the mesh. -/
structure MeshAsset where
  name : String
  material : String
  kind : String
  vertices : List Vec3
  faces : List (ℕ × ℕ × ℕ)
  color : ℤ × ℤ × ℤ × ℤ
  position : Vec3
  scale : Vec3

/-- `procedural_engine.py` line 22. -/
def MAX_VEGETATION_INSTANCES : ℕ := 4000

/-- The deterministic external functions the engine calls (see the module
comment).  `randU s i` is the i-th value of `random.Random(s).random()`
(every draw lies in `[0,1)`); `randIntAt s i a b` is the i-th draw when that
draw is `randint(a, b)`; `bufferContainsPt sp x y` is shapely's
`LineString(...).buffer(sp.width, cap_style=2, join_style=2).contains(Point(x, y))`. -/
structure ExternalFns where
  pnoise2 : ℚ → ℚ → ℤ → ℚ
  randU : ℤ → ℕ → ℚ
  randIntAt : ℤ → ℕ → ℤ → ℤ → ℤ
  cosf : ℚ → ℚ
  sinf : ℚ → ℚ
  sqrtf : ℚ → ℚ
  twoPi : ℚ
  bufferContainsPt : SplineRule → ℚ → ℚ → Bool

/-- The state of the one `random.Random` instance `build` creates: its seed
and how many draws have been consumed. -/
structure Rng where
  seed : ℤ
  idx : ℕ

/-- One draw of `rng.random()`. -/
def nextUnit (E : ExternalFns) (r : Rng) : ℚ × Rng :=
  (E.randU r.seed r.idx, ⟨r.seed, r.idx + 1⟩)

/-- `rng.uniform(a, b)`: CPython computes `a + (b - a) * random()`. -/
def uniformQ (E : ExternalFns) (a b : ℚ) (r : Rng) : ℚ × Rng :=
  let s := nextUnit E r
  (a + (b - a) * s.1, s.2)

/-- `rng.randint(a, b)`, abstracted to one draw of the stream. -/
def randIntQ (E : ExternalFns) (a b : ℤ) (r : Rng) : ℤ × Rng :=
  (E.randIntAt r.seed r.idx a b, ⟨r.seed, r.idx + 1⟩)

/-! ## `_generate_heightmap` (lines 46–71) -/

/-- The per-octave loop of `_generate_heightmap` (lines 55–67): starting from
`freq = cfg.frequency`, `amp = cfg.amplitude`, accumulate
`pnoise2(x*freq, y*freq, base=cfg.seed) * amp`, then multiply `freq` by the
lacunarity and `amp` by the persistence.  (`repeatx=repeaty=1024` are fixed
arguments of the source's `pnoise2` call, absorbed into `E.pnoise2`.) -/
def octaveLoop (E : ExternalFns) (cfg : TerrainNoise) (x y : ℚ) :
    ℕ → ℚ → ℚ → ℚ → ℚ
  | 0, _, _, acc => acc
  | n + 1, freq, amp, acc =>
      octaveLoop E cfg x y n (freq * cfg.lacunarity) (amp * cfg.persistence)
        (acc + E.pnoise2 (x * freq) (y * freq) cfg.seed * amp)

/-- The raw (pre-normalization) elevation sample of `_generate_heightmap`. -/
def rawElevation (E : ExternalFns) (cfg : TerrainNoise) (x y : ℚ) : ℚ :=
  octaveLoop E cfg x y cfg.octaves cfg.frequency cfg.amplitude 0

/-- Raw grid entry `hm[i, j]` before normalization: the noise is sampled at
`x = (i*step)/size`, `y = (j*step)/size` (lines 53–54). -/
def rawHeightAt (E : ExternalFns) (schema : WorldSchema) (res : ℕ) (i j : ℕ) : ℚ :=
  let size := schema.scale_km * 1000
  let step := size / ((res : ℚ) - 1)
  rawElevation E schema.heightmap (((i : ℚ) * step) / size) (((j : ℚ) * step) / size)

/-- Minimum of a non-empty list (numpy `hm.min()`); `0` for `[]`, which the
source never reaches (the grid has `res ≥ 2` rows). -/
def listMin : List ℚ → ℚ
  | [] => 0
  | [x] => x
  | x :: y :: t => min x (listMin (y :: t))

/-- Maximum of a non-empty list (numpy `hm.max()`). -/
def listMax : List ℚ → ℚ
  | [] => 0
  | [x] => x
  | x :: y :: t => max x (listMax (y :: t))

/-- All entries of the `res × res` grid, row-major (the order numpy scans). -/
def gridFlat (res : ℕ) (g : ℕ → ℕ → ℚ) : List ℚ :=
  (List.range res).flatMap (fun i => (List.range res).map (fun j => g i j))

/-- `_generate_heightmap` (lines 46–71): sample the fractal noise on the grid,
normalize by `(hm - hm.min()) / (hm.max() - hm.min() + 1e-6)`, then rescale by
`hm * elevation_scale + base_height`. -/
def generate_heightmap (E : ExternalFns) (schema : WorldSchema) (res : ℕ) :
    ℕ → ℕ → ℚ :=
  let raw := rawHeightAt E schema res
  let flat := gridFlat res raw
  let mn := listMin flat
  let mx := listMax flat
  fun i j =>
    (raw i j - mn) / (mx - mn + 1 / 1000000) * schema.heightmap.elevation_scale
      + schema.heightmap.base_height

theorem listMin_le {l : List ℚ} {x : ℚ} (hx : x ∈ l) : listMin l ≤ x := by
  induction l with
  | nil => cases hx
  | cons a t ih =>
    cases t with
    | nil =>
      rcases List.mem_singleton.mp hx with rfl
      exact le_of_eq rfl
    | cons b u =>
      rcases List.mem_cons.mp hx with rfl | hx
      · exact min_le_left _ _
      · exact le_trans (min_le_right _ _) (ih hx)

theorem le_listMax {l : List ℚ} {x : ℚ} (hx : x ∈ l) : x ≤ listMax l := by
  induction l with
  | nil => cases hx
  | cons a t ih =>
    cases t with
    | nil =>
      rcases List.mem_singleton.mp hx with rfl
      exact le_of_eq rfl
    | cons b u =>
      rcases List.mem_cons.mp hx with rfl | hx
      · exact le_max_left _ _
      · exact le_trans (ih hx) (le_max_right _ _)

theorem mem_gridFlat {res : ℕ} {g : ℕ → ℕ → ℚ} {i j : ℕ}
    (hi : i < res) (hj : j < res) : g i j ∈ gridFlat res g := by
  unfold gridFlat
  refine List.mem_flatMap.mpr ⟨i, List.mem_range.mpr hi, ?_⟩
  exact List.mem_map.mpr ⟨j, List.mem_range.mpr hj, rfl⟩

/-- C2 (helper): one normalized-and-rescaled value lies in the claimed band. -/
theorem normalize_bounds (v mn mx s b : ℚ) (hmn : mn ≤ v) (hmx : v ≤ mx)
    (hs : 0 ≤ s) :
    b ≤ (v - mn) / (mx - mn + 1 / 1000000) * s + b ∧
      (v - mn) / (mx - mn + 1 / 1000000) * s + b ≤ b + s := by
  have hden : 0 < mx - mn + 1 / 1000000 := by
    have : (0 : ℚ) ≤ mx - mn := by linarith
    linarith
  have ht0 : 0 ≤ (v - mn) / (mx - mn + 1 / 1000000) :=
    div_nonneg (by linarith) (le_of_lt hden)
  have ht1 : (v - mn) / (mx - mn + 1 / 1000000) ≤ 1 := by
    rw [div_le_one hden]
    linarith
  constructor
  · nlinarith
  · nlinarith

/-- C2: after heightmap generation (normalization into `[0,1]` with the
`1e-6` epsilon guard, then rescaling), every grid elevation of the `res × res`
grid (`res ≥ 2`) lies within `[base_height, base_height + elevation_scale]`,
for every noise configuration with non-negative `elevation_scale` (the schema
validates `elevation_scale > 0.1`) and every external noise function. -/
theorem heightmap_bounds (E : ExternalFns) (schema : WorldSchema) (res : ℕ)
    (hres : 2 ≤ res) (hs : 0 ≤ schema.heightmap.elevation_scale)
    (i j : ℕ) (hi : i < res) (hj : j < res) :
    schema.heightmap.base_height ≤ generate_heightmap E schema res i j ∧
      generate_heightmap E schema res i j ≤
        schema.heightmap.base_height + schema.heightmap.elevation_scale := by
  have hmem : rawHeightAt E schema res i j ∈ gridFlat res (rawHeightAt E schema res) :=
    mem_gridFlat hi hj
  have hmn := listMin_le hmem
  have hmx := le_listMax hmem
  unfold generate_heightmap
  exact normalize_bounds _ _ _ _ _ hmn hmx hs

/-! A concrete environment and schema used by the witnesses. -/

/-- Concrete stand-in for the external functions: a possible behavior of the
external libraries, used only to instantiate theorems at concrete inputs. -/
def Ew : ExternalFns where
  pnoise2 := fun x y _ => x + y
  randU := fun _ n => if n % 2 = 0 then 0 else 1 / 2
  randIntAt := fun _ _ a _ => a
  cosf := fun _ => 1
  sinf := fun _ => 0
  sqrtf := fun _ => 0
  twoPi := 71 / 11
  bufferContainsPt := fun _ x _ => decide (x = 0)

/-- A concrete world schema (all fields inside the pydantic bounds). -/
def schemaW : WorldSchema where
  biome := "tundra"
  terrain_type := "mountainous"
  scale_km := 10
  heightmap :=
    { seed := 42, octaves := 2, frequency := 3 / 5, amplitude := 120
      lacunarity := 21 / 10, persistence := 9 / 20, elevation_scale := 480
      base_height := 35 }
  terrain_features := []
  object_rules := [{ kind := "tower", count := 2, scale_range := (4 / 5, 9 / 5)
                     height_range := (12, 90), scatter_radius := 320, cluster := true }]
  splines := [{ name := "arterial_road", kind := "road"
                control_points := [(0, 0, 0), (6000, 0, 6000)]
                width := 12, depth := 2, material := "asphalt" }]
  vegetation := { density_per_km2 := 320, species := ["conifer"], max_height := 12 }

/-- Witness for C2: the bound instantiated on `schemaW` at grid node (0, 1)
of a 2×2 grid, each hypothesis discharged concretely. -/
theorem heightmap_bounds_witness :
    ((2 : ℕ) ≤ 2 ∧ (0 : ℚ) ≤ schemaW.heightmap.elevation_scale ∧
        (0 : ℕ) < 2 ∧ (1 : ℕ) < 2) ∧
      schemaW.heightmap.base_height ≤ generate_heightmap Ew schemaW 2 0 1 ∧
        generate_heightmap Ew schemaW 2 0 1 ≤
          schemaW.heightmap.base_height + schemaW.heightmap.elevation_scale :=
  ⟨⟨le_refl 2, by norm_num [schemaW], by norm_num, by norm_num⟩,
    heightmap_bounds Ew schemaW 2 (le_refl 2) (by norm_num [schemaW]) 0 1
      (by norm_num) (by norm_num)⟩

/-! ## `_carve_spline` (lines 73–88) -/

/-- `_carve_spline`: for every grid node `(i, j)`, if the node's horizontal
position `(i*step, j*step)` lies inside the buffered corridor of the spline,
subtract the full `depth` for a river and `depth * 0.3` for a road;
otherwise leave the node unchanged.  (The source mutates the grid in place
while scanning all `i, j < res`; the returned grid is the pointwise result.) -/
def carve_spline (E : ExternalFns) (scale_km : ℚ) (res : ℕ) (spline : SplineRule)
    (hm : ℕ → ℕ → ℚ) : ℕ → ℕ → ℚ :=
  fun i j =>
    let size := scale_km * 1000
    let step := size / ((res : ℚ) - 1)
    if E.bufferContainsPt spline ((i : ℚ) * step) ((j : ℚ) * step) then
      if spline.kind = "river" then hm i j - spline.depth
      else hm i j - spline.depth * (3 / 10)
    else hm i j

/-- The carving pass of `build` (lines 253–254): splines carved sequentially
in schema order. -/
def carveAll (E : ExternalFns) (scale_km : ℚ) (res : ℕ)
    (splines : List SplineRule) (hm : ℕ → ℕ → ℚ) : ℕ → ℕ → ℚ :=
  splines.foldl (fun g s => carve_spline E scale_km res s g) hm

/-- C3: carving a single spline lowers exactly the nodes inside the buffered
corridor — by the full `depth` for a river and by `depth * 0.3` for a road —
leaves every node outside the corridor unchanged, and for a river of positive
depth every inside node ends strictly lower than its pre-carve value. -/
theorem carve_spline_effect (E : ExternalFns) (scale_km : ℚ) (res : ℕ)
    (spline : SplineRule) (hm : ℕ → ℕ → ℚ) (i j : ℕ) :
    (E.bufferContainsPt spline ((i : ℚ) * (scale_km * 1000 / ((res : ℚ) - 1)))
          ((j : ℚ) * (scale_km * 1000 / ((res : ℚ) - 1))) = true →
        spline.kind = "river" →
        carve_spline E scale_km res spline hm i j = hm i j - spline.depth) ∧
      (E.bufferContainsPt spline ((i : ℚ) * (scale_km * 1000 / ((res : ℚ) - 1)))
          ((j : ℚ) * (scale_km * 1000 / ((res : ℚ) - 1))) = true →
        spline.kind ≠ "river" →
        carve_spline E scale_km res spline hm i j = hm i j - spline.depth * (3 / 10)) ∧
      (E.bufferContainsPt spline ((i : ℚ) * (scale_km * 1000 / ((res : ℚ) - 1)))
          ((j : ℚ) * (scale_km * 1000 / ((res : ℚ) - 1))) = false →
        carve_spline E scale_km res spline hm i j = hm i j) ∧
      (E.bufferContainsPt spline ((i : ℚ) * (scale_km * 1000 / ((res : ℚ) - 1)))
          ((j : ℚ) * (scale_km * 1000 / ((res : ℚ) - 1))) = true →
        spline.kind = "river" → 0 < spline.depth →
        carve_spline E scale_km res spline hm i j < hm i j) := by
  refine ⟨fun hin hk => ?_, fun hin hk => ?_, fun hout => ?_, fun hin hk hd => ?_⟩
  · simp [carve_spline, hin, hk]
  · simp [carve_spline, hin, hk]
  · simp [carve_spline, hout]
  · simp only [carve_spline, hin, hk, if_true]
    linarith

/-- A concrete river rule used by the C3 witness. -/
def riverW : SplineRule where
  name := "river_main"
  kind := "river"
  control_points := [(0, 0, 0), (6000, 0, 0)]
  width := 30
  depth := 8
  material := "water"

/-- Witness for C3: the effect instantiated at a concrete grid; under `Ew`
the corridor test holds exactly at column `i = 0`, so node (0, 0) is lowered
by the full depth 8 (from 100 to 92 < 100) and node (1, 1) is untouched. -/
theorem carve_spline_effect_witness :
    (Ew.bufferContainsPt riverW ((0 : ℚ) * (10 * 1000 / ((2 : ℚ) - 1)))
          ((0 : ℚ) * (10 * 1000 / ((2 : ℚ) - 1))) = true →
        riverW.kind = "river" →
        carve_spline Ew 10 2 riverW (fun _ _ => 100) 0 0 = 100 - riverW.depth) ∧
      (Ew.bufferContainsPt riverW ((1 : ℚ) * (10 * 1000 / ((2 : ℚ) - 1)))
          ((1 : ℚ) * (10 * 1000 / ((2 : ℚ) - 1))) = false →
        carve_spline Ew 10 2 riverW (fun _ _ => 100) 1 1 = 100) ∧
      (Ew.bufferContainsPt riverW ((0 : ℚ) * (10 * 1000 / ((2 : ℚ) - 1)))
          ((0 : ℚ) * (10 * 1000 / ((2 : ℚ) - 1))) = true →
        riverW.kind = "river" → 0 < riverW.depth →
        carve_spline Ew 10 2 riverW (fun _ _ => 100) 0 0 < 100) ∧
      carve_spline Ew 10 2 riverW (fun _ _ => 100) 0 0 = 92 :=
  ⟨(carve_spline_effect Ew 10 2 riverW (fun _ _ => 100) 0 0).1,
    fun hout => (carve_spline_effect Ew 10 2 riverW (fun _ _ => 100) 1 1).2.2.1 hout,
    (carve_spline_effect Ew 10 2 riverW (fun _ _ => 100) 0 0).2.2.2,
    by norm_num [carve_spline, Ew, riverW]⟩

/-! ## `_build_terrain_mesh` (lines 90–111) -/

/-- The vertex list of `_build_terrain_mesh`: one vertex per grid node at
world position `(i*step, hm[i,j], j*step)`, rows scanned in order. -/
def terrainVertices (hm : ℕ → ℕ → ℚ) (res : ℕ) (scale_km : ℚ) : List Vec3 :=
  let size := scale_km * 1000
  let step := size / ((res : ℚ) - 1)
  (List.range res).flatMap
    (fun i => (List.range res).map (fun j => ((i : ℚ) * step, hm i j, (j : ℚ) * step)))

/-- The face list of `_build_terrain_mesh`: for each grid cell `(i, j)` with
`a = i*res + j`, `b = a + 1`, `c = a + res`, `d = c + 1`, the two triangles
`(a, c, b)` and `(b, c, d)`. -/
def terrainFaces (res : ℕ) : List (ℕ × ℕ × ℕ) :=
  (List.range (res - 1)).flatMap
    (fun i => (List.range (res - 1)).flatMap
      (fun j =>
        [(i * res + j, i * res + j + res, i * res + j + 1),
         (i * res + j + 1, i * res + j + res, i * res + j + res + 1)]))

/-- The terrain `MeshAsset` `build` creates (lines 256–257, 109–110). -/
def terrainAsset (hm : ℕ → ℕ → ℚ) (res : ℕ) (scale_km : ℚ) : MeshAsset where
  name := "terrain"
  material := "terrain"
  kind := "terrain"
  vertices := terrainVertices hm res scale_km
  faces := terrainFaces res
  color := (122, 104, 80, 255)
  position := (0, 0, 0)
  scale := (1, 1, 1)

theorem length_flatMap_const {α β : Type} (l : List α) (f : α → List β) (m : ℕ)
    (h : ∀ a, (f a).length = m) : (l.flatMap f).length = l.length * m := by
  induction l with
  | nil => simp
  | cons a t ih =>
    simp only [List.flatMap_cons, List.length_append, ih, h, List.length_cons]
    ring

/-- C6: the terrain mesh has exactly `res²` vertices and `2*(res-1)²`
triangles, and each grid node `(i, j)` contributes its vertex at world
position `(i*step, hm[i,j], j*step)`. -/
theorem terrain_mesh_counts (hm : ℕ → ℕ → ℚ) (res : ℕ) (scale_km : ℚ)
    (hres : 2 ≤ res) :
    (terrainVertices hm res scale_km).length = res * res ∧
      (terrainFaces res).length = 2 * ((res - 1) * (res - 1)) ∧
      (∀ i j, i < res → j < res →
        ((i : ℚ) * (scale_km * 1000 / ((res : ℚ) - 1)), hm i j,
          (j : ℚ) * (scale_km * 1000 / ((res : ℚ) - 1))) ∈
            terrainVertices hm res scale_km) := by
  refine ⟨?_, ?_, ?_⟩
  · unfold terrainVertices
    rw [length_flatMap_const _ _ res (fun a => by simp)]
    simp
  · unfold terrainFaces
    rw [length_flatMap_const _ _ (2 * (res - 1))
        (fun a => by
          rw [length_flatMap_const _ _ 2 (fun b => by simp)]
          simp [Nat.mul_comm])]
    simp only [List.length_range]
    ring
  · intro i j hi hj
    unfold terrainVertices
    refine List.mem_flatMap.mpr ⟨i, List.mem_range.mpr hi, ?_⟩
    exact List.mem_map.mpr ⟨j, List.mem_range.mpr hj, rfl⟩

/-- Witness for C6: a 3×3 grid yields 9 vertices and 8 triangles, with the
node (1, 2) vertex present. -/
theorem terrain_mesh_counts_witness :
    ((2 : ℕ) ≤ 3) ∧
      (terrainVertices (fun _ _ => 7) 3 10).length = 3 * 3 ∧
        (terrainFaces 3).length = 2 * ((3 - 1) * (3 - 1)) ∧
        (∀ i j : ℕ, i < 3 → j < 3 →
          ((i : ℚ) * (10 * 1000 / ((3 : ℚ) - 1)), (7 : ℚ),
            (j : ℚ) * (10 * 1000 / ((3 : ℚ) - 1))) ∈
              terrainVertices (fun _ _ => 7) 3 10) :=
  ⟨by norm_num, terrain_mesh_counts (fun _ _ => 7) 3 10 (by norm_num)⟩

/-! ## `_place_object` (lines 113–121) and `_make_structure` (lines 123–184) -/

/-- `_place_object`: sample `theta = uniform(0, 2π)`, then
`radius = uniform(scatter_radius * 0.4, scatter_radius)`, place at
`(size_m/2 + cos(theta)*radius, 0, size_m/2 + sin(theta)*radius)`, then
sample `scale = uniform(*scale_range)` and `height = uniform(*height_range)`;
the returned scale triple is `(scale, height/10, scale)`. -/
def place_object (E : ExternalFns) (rule : ObjectPlacementRule) (size_m : ℚ)
    (r : Rng) : (Vec3 × Vec3) × Rng :=
  let t := uniformQ E 0 E.twoPi r
  let rad := uniformQ E (rule.scatter_radius * (2 / 5)) rule.scatter_radius t.2
  let x := size_m / 2 + E.cosf t.1 * rad.1
  let z := size_m / 2 + E.sinf t.1 * rad.1
  let sc := uniformQ E rule.scale_range.1 rule.scale_range.2 rad.2
  let ht := uniformQ E rule.height_range.1 rule.height_range.2 sc.2
  (((x, 0, z), (sc.1, ht.1 / 10, sc.1)), ht.2)

/-- The sampled angle of `_place_object` on rng state `r`. -/
def placeTheta (E : ExternalFns) (r : Rng) : ℚ :=
  (uniformQ E 0 E.twoPi r).1

/-- The sampled radius of `_place_object` on rng state `r` (the second draw). -/
def placeRadius (E : ExternalFns) (rule : ObjectPlacementRule) (r : Rng) : ℚ :=
  (uniformQ E (rule.scatter_radius * (2 / 5)) rule.scatter_radius
    (uniformQ E 0 E.twoPi r).2).1

/-- Material tag of `_make_structure` (line 173): `"metal"` for the
vertical/tower-like kinds `tower`, `spire`, `hub`; `"concrete"` otherwise. -/
def structureMaterial (kind : String) : String :=
  if kind = "tower" ∨ kind = "spire" ∨ kind = "hub" then "metal" else "concrete"

/-- The `color_map` lookup of `_make_structure` (lines 175–183). -/
def structureColor (kind : String) : ℤ × ℤ × ℤ × ℤ :=
  if kind = "tower" then (160, 170, 185, 255)
  else if kind = "spire" then (180, 190, 200, 255)
  else if kind = "bridge" then (140, 145, 150, 255)
  else if kind = "dome" then (190, 195, 205, 255)
  else if kind = "hub" then (170, 180, 195, 255)
  else if kind = "hangar" then (150, 155, 160, 255)
  else (180, 185, 190, 255)

/-- `_make_structure`: the composite primitive solid (multi-segment cylinders
for towers/spires, deck plus supports for bridges, …) is produced by external
`trimesh.creation` calls; the asset records the placement transform the source
applies to it (the mesh is translated to `position` plus half its bounding-box
height) and the name/material/kind/color the source assigns. -/
def make_structure (rule : ObjectPlacementRule) (position scale : Vec3)
    (idx : ℕ) : MeshAsset where
  name := rule.kind ++ "_" ++ toString idx
  material := structureMaterial rule.kind
  kind := rule.kind
  vertices := []
  faces := []
  color := structureColor rule.kind
  position := position
  scale := scale

/-- The layout record `build` appends for one placed instance
(lines 267–275): name, position, scale, kind and material all copied from the
instance. -/
def layoutRecordOf (asset : MeshAsset) : WorldLayoutObject where
  name := asset.name
  position := asset.position
  scale := asset.scale
  kind := asset.kind
  material := asset.material

/-- The inner placement loop of `build` (lines 263–276) for one rule:
`n` remaining instances, `idx` the running `object_idx`. -/
def placeLoop (E : ExternalFns) (rule : ObjectPlacementRule) (size_m : ℚ) :
    ℕ → ℕ → Rng → List MeshAsset × List WorldLayoutObject × Rng
  | 0, _, r => ([], [], r)
  | n + 1, idx, r =>
      let p := place_object E rule size_m r
      let asset := make_structure rule p.1.1 p.1.2 idx
      let rest := placeLoop E rule size_m n (idx + 1) p.2
      (asset :: rest.1, layoutRecordOf asset :: rest.2.1, rest.2.2)

/-- The outer placement loop of `build` (lines 262–276): rules in schema
order, `object_idx` running across rules. -/
def placeAllRules (E : ExternalFns) (size_m : ℚ) :
    List ObjectPlacementRule → ℕ → Rng →
      List MeshAsset × List WorldLayoutObject × Rng
  | [], _, r => ([], [], r)
  | rule :: rest, idx, r =>
      let a := placeLoop E rule size_m rule.count idx r
      let b := placeAllRules E size_m rest (idx + rule.count) a.2.2
      (a.1 ++ b.1, a.2.1 ++ b.2.1, b.2.2)

/-- C5: the placed instance's horizontal offset from the terrain center
`(size_m/2, size_m/2)` has squared norm exactly `placeRadius²`, and
`placeRadius` lies in `[0.4 * scatter_radius, scatter_radius]` — so the
horizontal distance from the center lies in that annular band.  Hypotheses:
the scatter radius is non-negative (the schema validates `> 10`), the radius
draw of the underlying generator lies in `[0, 1)` (as `random()` does), and
`cos² + sin² = 1` at the sampled angle. -/
theorem placement_annulus (E : ExternalFns) (rule : ObjectPlacementRule)
    (size_m : ℚ) (r : Rng)
    (hrad : 0 ≤ rule.scatter_radius)
    (hu0 : 0 ≤ E.randU r.seed (r.idx + 1)) (hu1 : E.randU r.seed (r.idx + 1) < 1)
    (hpy : E.cosf (placeTheta E r) ^ 2 + E.sinf (placeTheta E r) ^ 2 = 1) :
    rule.scatter_radius * (2 / 5) ≤ placeRadius E rule r ∧
      placeRadius E rule r ≤ rule.scatter_radius ∧
      ((place_object E rule size_m r).1.1.1 - size_m / 2) ^ 2 +
          ((place_object E rule size_m r).1.1.2.2 - size_m / 2) ^ 2 =
        placeRadius E rule r ^ 2 := by
  have hradix : (uniformQ E 0 E.twoPi r).2 = Rng.mk r.seed (r.idx + 1) := rfl
  have hval : placeRadius E rule r =
      rule.scatter_radius * (2 / 5) +
        (rule.scatter_radius - rule.scatter_radius * (2 / 5)) *
          E.randU r.seed (r.idx + 1) := by
    simp [placeRadius, uniformQ, nextUnit]
  refine ⟨?_, ?_, ?_⟩
  · rw [hval]
    nlinarith
  · rw [hval]
    nlinarith
  · have hx : (place_object E rule size_m r).1.1.1 - size_m / 2 =
        E.cosf (placeTheta E r) * placeRadius E rule r := by
      simp [place_object, placeTheta, placeRadius]
    have hz : (place_object E rule size_m r).1.1.2.2 - size_m / 2 =
        E.sinf (placeTheta E r) * placeRadius E rule r := by
      simp [place_object, placeTheta, placeRadius]
    rw [hx, hz]
    have expand : (E.cosf (placeTheta E r) * placeRadius E rule r) ^ 2 +
        (E.sinf (placeTheta E r) * placeRadius E rule r) ^ 2 =
        (E.cosf (placeTheta E r) ^ 2 + E.sinf (placeTheta E r) ^ 2) *
          placeRadius E rule r ^ 2 := by ring
    rw [expand, hpy, one_mul]

/-- A concrete placement rule used by witnesses. -/
def ruleW : ObjectPlacementRule where
  kind := "tower"
  count := 2
  scale_range := (4 / 5, 9 / 5)
  height_range := (12, 90)
  scatter_radius := 320
  cluster := true

/-- Witness for C5: under `Ew` (radius draw `1/2`, `cos = 1`, `sin = 0`) the
instantiated band membership and distance identity, hypotheses discharged
concretely. -/
theorem placement_annulus_witness :
    ((0 : ℚ) ≤ ruleW.scatter_radius ∧ (0 : ℚ) ≤ Ew.randU 9 (0 + 1) ∧
        Ew.randU 9 (0 + 1) < 1 ∧
        Ew.cosf (placeTheta Ew ⟨9, 0⟩) ^ 2 + Ew.sinf (placeTheta Ew ⟨9, 0⟩) ^ 2 = 1) ∧
      (ruleW.scatter_radius * (2 / 5) ≤ placeRadius Ew ruleW ⟨9, 0⟩ ∧
        placeRadius Ew ruleW ⟨9, 0⟩ ≤ ruleW.scatter_radius ∧
        ((place_object Ew ruleW 10000 ⟨9, 0⟩).1.1.1 - 10000 / 2) ^ 2 +
            ((place_object Ew ruleW 10000 ⟨9, 0⟩).1.1.2.2 - 10000 / 2) ^ 2 =
          placeRadius Ew ruleW ⟨9, 0⟩ ^ 2) :=
  ⟨⟨by norm_num [ruleW], by norm_num [Ew], by norm_num [Ew], by norm_num [Ew]⟩,
    placement_annulus Ew ruleW 10000 ⟨9, 0⟩ (by norm_num [ruleW])
      (by norm_num [Ew]) (by norm_num [Ew]) (by norm_num [Ew])⟩

/-! ## `_scatter_vegetation` (lines 186–219) -/

/-- The instance count of `_scatter_vegetation` (lines 187–188):
`int(density_per_km2 * max(scale_km, 1))` capped at
`MAX_VEGETATION_INSTANCES` (`int(...)` truncates; the product is
non-negative for schema-valid densities, so truncation is the floor). -/
def vegCount (veg : VegetationRule) (scale_km : ℚ) : ℕ :=
  min (Int.toNat ⌊veg.density_per_km2 * max scale_km 1⌋) MAX_VEGETATION_INSTANCES

/-- One loop iteration of `_scatter_vegetation` (lines 198–218): sample the
horizontal position uniformly over the terrain, look up the nearest-below
grid cell height (indices clamped by `min(..., res - 2)`), branch
tree-vs-bush on `random() > 0.3`, sample the scale and the three color
jitters.  The cone/icosphere geometry comes from external `trimesh.creation`
calls; the asset records the scale and translation the source applies. -/
def scatterOne (E : ExternalFns) (schema : WorldSchema) (hm : ℕ → ℕ → ℚ)
    (res : ℕ) (i : ℕ) (r : Rng) : MeshAsset × Rng :=
  let size_m := schema.scale_km * 1000
  let step := size_m / ((res : ℚ) - 1)
  let sx := uniformQ E 0 size_m r
  let sz := uniformQ E 0 size_m sx.2
  let xi := min (Int.toNat ⌊sx.1 / step⌋) (res - 2)
  let zi := min (Int.toNat ⌊sz.1 / step⌋) (res - 2)
  let h := hm xi zi
  let t := nextUnit E sz.2
  if 3 / 10 < t.1 then
    let sc := uniformQ E (1 / 2) (min (schema.vegetation.max_height / 6) (7 / 2)) t.2
    let c1 := randIntQ E 0 20 sc.2
    let c2 := randIntQ E 0 40 c1.2
    let c3 := randIntQ E 0 20 c2.2
    (⟨"veg_" ++ toString i, "foliage", "vegetation", [], [],
      (28 + c1.1, 100 + c2.1, 65 + c3.1, 255), (sx.1, h, sz.1),
      (sc.1, sc.1, sc.1)⟩, c3.2)
  else
    let sc := uniformQ E (3 / 10) (4 / 5) t.2
    let c1 := randIntQ E 0 20 sc.2
    let c2 := randIntQ E 0 30 c1.2
    let c3 := randIntQ E 0 20 c2.2
    (⟨"veg_" ++ toString i, "foliage", "vegetation", [], [],
      (40 + c1.1, 130 + c2.1, 80 + c3.1, 255), (sx.1, h, sz.1),
      (sc.1, sc.1, sc.1)⟩, c3.2)

/-- The `for i in range(count)` loop of `_scatter_vegetation`. -/
def scatterLoop (E : ExternalFns) (schema : WorldSchema) (hm : ℕ → ℕ → ℚ)
    (res : ℕ) : ℕ → ℕ → Rng → List MeshAsset × Rng
  | 0, _, r => ([], r)
  | n + 1, i, r =>
      let a := scatterOne E schema hm res i r
      let rest := scatterLoop E schema hm res n (i + 1) a.2
      (a.1 :: rest.1, rest.2)

/-- `_scatter_vegetation` (lines 186–219). -/
def scatter_vegetation (E : ExternalFns) (schema : WorldSchema)
    (hm : ℕ → ℕ → ℚ) (res : ℕ) (r : Rng) : List MeshAsset × Rng :=
  scatterLoop E schema hm res (vegCount schema.vegetation schema.scale_km) 0 r

/-! ## `_build_spline_mesh` (lines 221–248) -/

/-- The control polyline projected onto the horizontal plane
(`[(p[0], p[2]) for p in spline.control_points]`, lines 222 and 77). -/
def projXZ (spline : SplineRule) : List (ℚ × ℚ) :=
  spline.control_points.map (fun p => (p.1, p.2.2))

/-- Euclidean length of one polyline segment (shapely), through the external
square root. -/
def segLen (E : ExternalFns) (p q : ℚ × ℚ) : ℚ :=
  E.sqrtf ((q.1 - p.1) ^ 2 + (q.2 - p.2) ^ 2)

/-- shapely `LineString.length`: the sum of the segment lengths. -/
def polyLen (E : ExternalFns) : List (ℚ × ℚ) → ℚ
  | p :: q :: t => segLen E p q + polyLen E (q :: t)
  | _ => 0

/-- shapely `LineString.interpolate(d)` (non-normalized): walk the segments,
linearly interpolating inside the segment containing arc length `d`, clamping
to the last point beyond the end. -/
def interpWalk (E : ExternalFns) : List (ℚ × ℚ) → ℚ → ℚ × ℚ
  | [], _ => (0, 0)
  | [p], _ => p
  | p :: q :: t, d =>
      let L := segLen E p q
      if d ≤ L then
        (if L = 0 then p
         else (p.1 + (q.1 - p.1) * (d / L), p.2 + (q.2 - p.2) * (d / L)))
      else interpWalk E (q :: t) (d - L)

/-- `samples = max(12, int(length / 6))` (line 224): at least 12 resampling
steps, coarser (`length/6`) only for long splines. -/
def splineSampleCount (E : ExternalFns) (spline : SplineRule) : ℕ :=
  max 12 (Int.toNat ⌊polyLen E (projXZ spline) / 6⌋)

/-- The resampled points (line 228): `interpolate(i / samples, normalized)`
for `i = 0 .. samples`, i.e. arc length `(i / samples) * length`. -/
def splineCoords (E : ExternalFns) (spline : SplineRule) : List (ℚ × ℚ) :=
  let pts := projXZ spline
  let L := polyLen E pts
  let n := splineSampleCount E spline
  (List.range (n + 1)).map (fun i : ℕ => interpWalk E pts (((i : ℚ) / (n : ℚ)) * L))

/-- The difference vector at sample `idx` (lines 230–233): forward difference
at the first sample, backward difference at every later sample. -/
def diffAt (coords : List (ℚ × ℚ)) (idx : ℕ) : ℚ × ℚ :=
  if idx = 0 then
    ((coords.getD 1 (0, 0)).1 - (coords.getD 0 (0, 0)).1,
     (coords.getD 1 (0, 0)).2 - (coords.getD 0 (0, 0)).2)
  else
    ((coords.getD idx (0, 0)).1 - (coords.getD (idx - 1) (0, 0)).1,
     (coords.getD idx (0, 0)).2 - (coords.getD (idx - 1) (0, 0)).2)

/-- The local perpendicular at sample `idx` (lines 234–235): rotate the
difference by 90° and divide by `sqrt(dx² + dz²) + 1e-6`. -/
def perpAt (E : ExternalFns) (coords : List (ℚ × ℚ)) (idx : ℕ) : ℚ × ℚ :=
  let dv := diffAt coords idx
  let lv := E.sqrtf (dv.1 * dv.1 + dv.2 * dv.2) + 1 / 1000000
  (-dv.2 / lv, dv.1 / lv)

/-- The left ribbon vertex at sample `idx` (line 236); `w2 = spline.width * 0.5`. -/
def leftVertexAt (E : ExternalFns) (w2 : ℚ) (coords : List (ℚ × ℚ))
    (idx : ℕ) : Vec3 :=
  ((coords.getD idx (0, 0)).1 + (perpAt E coords idx).1 * w2, 0,
    (coords.getD idx (0, 0)).2 + (perpAt E coords idx).2 * w2)

/-- The right ribbon vertex at sample `idx` (line 237). -/
def rightVertexAt (E : ExternalFns) (w2 : ℚ) (coords : List (ℚ × ℚ))
    (idx : ℕ) : Vec3 :=
  ((coords.getD idx (0, 0)).1 - (perpAt E coords idx).1 * w2, 0,
    (coords.getD idx (0, 0)).2 - (perpAt E coords idx).2 * w2)

/-- The ribbon vertex list (lines 229–239): left then right vertex per sample. -/
def splineVertices (E : ExternalFns) (spline : SplineRule) : List Vec3 :=
  let coords := splineCoords E spline
  let w2 := spline.width * (1 / 2)
  (List.range coords.length).flatMap
    (fun idx => [leftVertexAt E w2 coords idx, rightVertexAt E w2 coords idx])

/-- The quad-strip faces (lines 241–244): for `i = 0, 2, …, nverts - 4` the
triangles `(i, i+1, i+2)` and `(i+1, i+3, i+2)`. -/
def splineFaces (nverts : ℕ) : List (ℕ × ℕ × ℕ) :=
  (List.range ((nverts - 2 + 1) / 2)).flatMap
    (fun k => [(2 * k, 2 * k + 1, 2 * k + 2), (2 * k + 1, 2 * k + 3, 2 * k + 2)])

/-- `_build_spline_mesh` (lines 221–248). -/
def build_spline_mesh (E : ExternalFns) (spline : SplineRule) : MeshAsset where
  name := spline.name
  material := spline.material
  kind := spline.kind
  vertices := splineVertices E spline
  faces := splineFaces (splineVertices E spline).length
  color := if spline.kind = "road" then (50, 50, 50, 255) else (32, 80, 160, 220)
  position := (0, 0, 0)
  scale := (1, 1, 1)

/-! ## `build` (lines 250–291) -/

/-- Line 251, `random.Random(seed or schema.heightmap.seed)`: Python's `or`
takes the right operand when `seed` is `None` or the falsy integer `0`. -/
def effectiveSeed (seed : Option ℤ) (cfgSeed : ℤ) : ℤ :=
  match seed with
  | none => cfgSeed
  | some s => if s = 0 then cfgSeed else s

/-- `procedural_engine.py` `WorldBuildResult`. -/
structure WorldBuildResult where
  meshes : List MeshAsset
  heightmap : ℕ → ℕ → ℚ
  layout : WorldLayout

/-- `ProceduralEngine.build` (lines 250–291): generate the heightmap, carve
every spline in schema order, build the terrain mesh, place every rule's
instances (one `MeshAsset` plus one `WorldLayoutObject` each), build the
spline ribbon meshes, scatter vegetation over the carved grid, and assemble
the result.  `res` is the engine's configured `grid_resolution`. -/
def build (E : ExternalFns) (res : ℕ) (schema : WorldSchema)
    (seed : Option ℤ) : WorldBuildResult :=
  let rng : Rng := ⟨effectiveSeed seed schema.heightmap.seed, 0⟩
  let hm := carveAll E schema.scale_km res schema.splines
    (generate_heightmap E schema res)
  let size_m := schema.scale_km * 1000
  let placed := placeAllRules E size_m schema.object_rules 0 rng
  let splineMeshes := schema.splines.map (fun s => build_spline_mesh E s)
  let veg := scatter_vegetation E schema hm res placed.2.2
  { meshes := terrainAsset hm res schema.scale_km ::
      (placed.1 ++ splineMeshes ++ veg.1)
    heightmap := hm
    layout := { terrain_bounds_m := (size_m, size_m), objects := placed.2.1
                splines := schema.splines, vegetation_count := veg.1.length } }

/-! ## Claims about `build` -/

/-- C1: for a fixed schema and seed, two `build` calls produce identical
results — the same height-grid values at every node, the same number of
placed objects and vegetation instances, identical per-object positions and
scales, and in fact identical results outright.  The embedding makes the
engine a pure function of the schema, the seed and the deterministic external
functions (noise, the seeded random stream, trig, sqrt, corridor test): it
threads one explicitly-seeded `Rng` value in fixed rule-then-instance order
and reads no other state, which is exactly the claim's "no hidden global
random state". -/
theorem build_deterministic (E : ExternalFns) (res : ℕ) (schema : WorldSchema)
    (seed : Option ℤ) (r₁ r₂ : WorldBuildResult)
    (h₁ : r₁ = build E res schema seed) (h₂ : r₂ = build E res schema seed) :
    r₁.heightmap = r₂.heightmap ∧
      r₁.layout.objects.length = r₂.layout.objects.length ∧
      r₁.layout.vegetation_count = r₂.layout.vegetation_count ∧
      r₁.layout.objects.map (fun o => (o.position, o.scale)) =
        r₂.layout.objects.map (fun o => (o.position, o.scale)) ∧
      r₁ = r₂ := by
  subst h₁
  subst h₂
  exact ⟨rfl, rfl, rfl, rfl, rfl⟩

/-- Witness for C1: two builds of `schemaW` with seed 5 on a 2×2 grid. -/
theorem build_deterministic_witness :
    (build Ew 2 schemaW (some 5)).heightmap = (build Ew 2 schemaW (some 5)).heightmap ∧
      (build Ew 2 schemaW (some 5)).layout.objects.length =
        (build Ew 2 schemaW (some 5)).layout.objects.length ∧
      (build Ew 2 schemaW (some 5)).layout.vegetation_count =
        (build Ew 2 schemaW (some 5)).layout.vegetation_count ∧
      (build Ew 2 schemaW (some 5)).layout.objects.map (fun o => (o.position, o.scale)) =
        (build Ew 2 schemaW (some 5)).layout.objects.map (fun o => (o.position, o.scale)) ∧
      build Ew 2 schemaW (some 5) = build Ew 2 schemaW (some 5) :=
  build_deterministic Ew 2 schemaW (some 5) (build Ew 2 schemaW (some 5))
    (build Ew 2 schemaW (some 5)) rfl rfl

/-- C10: Python's `seed or schema.heightmap.seed` treats the explicit seed 0
as falsy, so `build(schema, seed=0)` equals `build(schema)` with no seed —
the zero seed is replaced by the schema's noise seed and never initializes
the generator. -/
theorem zero_seed_fallback (E : ExternalFns) (res : ℕ) (schema : WorldSchema)
    (h : schema.heightmap.seed ≠ 0) :
    build E res schema (some 0) = build E res schema none ∧
      effectiveSeed (some 0) schema.heightmap.seed = schema.heightmap.seed := by
  constructor
  · simp [build, effectiveSeed]
  · simp [effectiveSeed]

/-- Witness for C10: `schemaW` has nonzero noise seed 42. -/
theorem zero_seed_fallback_witness :
    schemaW.heightmap.seed ≠ 0 ∧
      (build Ew 2 schemaW (some 0) = build Ew 2 schemaW none ∧
        effectiveSeed (some 0) schemaW.heightmap.seed = schemaW.heightmap.seed) :=
  ⟨by decide, zero_seed_fallback Ew 2 schemaW (by decide)⟩

theorem scatterLoop_length (E : ExternalFns) (schema : WorldSchema)
    (hm : ℕ → ℕ → ℚ) (res : ℕ) :
    ∀ n i r, (scatterLoop E schema hm res n i r).1.length = n := by
  intro n
  induction n with
  | zero => intro i r; rfl
  | succ k ih => intro i r; simp [scatterLoop, ih]

/-- C4: the vegetation scatterer produces exactly
`min(int(density_per_km2 * max(scale_km, 1)), 4000)` instances, never more
than the fixed ceiling `MAX_VEGETATION_INSTANCES = 4000`; density 5000/km² on
a 200 km world yields exactly the capped 4000, not the raw 1000000.  (The
non-negativity hypothesis is the schema's `density_per_km2 ≥ 0` bound, under
which Python's `int()` truncation is the floor.) -/
theorem vegetation_cap (E : ExternalFns) (schema : WorldSchema)
    (hm : ℕ → ℕ → ℚ) (res : ℕ) (r : Rng)
    (hd : 0 ≤ schema.vegetation.density_per_km2) :
    (scatter_vegetation E schema hm res r).1.length =
        min (Int.toNat ⌊schema.vegetation.density_per_km2 *
          max schema.scale_km 1⌋) 4000 ∧
      (scatter_vegetation E schema hm res r).1.length ≤ 4000 ∧
      vegCount ⟨5000, ["shrub"], 12⟩ 200 = 4000 := by
  have hlen : (scatter_vegetation E schema hm res r).1.length =
      vegCount schema.vegetation schema.scale_km :=
    scatterLoop_length E schema hm res _ 0 r
  refine ⟨?_, ?_, ?_⟩
  · rw [hlen]; rfl
  · rw [hlen]; exact min_le_right _ _
  · have hmax : max (200 : ℚ) 1 = 200 := by norm_num
    have hprod : (5000 : ℚ) * max (200 : ℚ) 1 = ((1000000 : ℤ) : ℚ) := by
      rw [hmax]; norm_num
    unfold vegCount MAX_VEGETATION_INSTANCES
    rw [hprod, Int.floor_intCast]
    rfl

/-- Witness for C4: the count formula instantiated on `schemaW` (density 320,
scale 10 km → 3200 instances, under the cap). -/
theorem vegetation_cap_witness :
    ((0 : ℚ) ≤ schemaW.vegetation.density_per_km2) ∧
      ((scatter_vegetation Ew schemaW (fun _ _ => 0) 2 ⟨1, 0⟩).1.length =
          min (Int.toNat ⌊schemaW.vegetation.density_per_km2 *
            max schemaW.scale_km 1⌋) 4000 ∧
        (scatter_vegetation Ew schemaW (fun _ _ => 0) 2 ⟨1, 0⟩).1.length ≤ 4000 ∧
        vegCount ⟨5000, ["shrub"], 12⟩ 200 = 4000) :=
  ⟨by norm_num [schemaW], vegetation_cap Ew schemaW (fun _ _ => 0) 2 ⟨1, 0⟩
    (by norm_num [schemaW])⟩

/-- The agreement C8 asserts between a placed instance's mesh asset and its
layout record. -/
def recordAgrees (a : MeshAsset) (o : WorldLayoutObject) : Prop :=
  o.name = a.name ∧ o.position = a.position ∧ o.scale = a.scale ∧
    o.kind = a.kind ∧ o.material = a.material

theorem forall₂_mem_right {α β : Type} {R : α → β → Prop} :
    ∀ {l₁ : List α} {l₂ : List β}, List.Forall₂ R l₁ l₂ →
      ∀ b ∈ l₂, ∃ a ∈ l₁, R a b := by
  intro l₁ l₂ h
  induction h with
  | nil => intro b hb; cases hb
  | cons hr ht ih =>
    intro b hb
    rcases List.mem_cons.mp hb with rfl | hb
    · exact ⟨_, List.mem_cons_self _ _, hr⟩
    · obtain ⟨a, ha, hra⟩ := ih b hb
      exact ⟨a, List.mem_cons_of_mem _ ha, hra⟩

theorem placeLoop_spec (E : ExternalFns) (rule : ObjectPlacementRule)
    (size_m : ℚ) :
    ∀ n idx r,
      (placeLoop E rule size_m n idx r).1.length = n ∧
        (placeLoop E rule size_m n idx r).2.1.length = n ∧
        List.Forall₂ recordAgrees (placeLoop E rule size_m n idx r).1
          (placeLoop E rule size_m n idx r).2.1 ∧
        ∀ a ∈ (placeLoop E rule size_m n idx r).1,
          a.kind = rule.kind ∧ a.material = structureMaterial rule.kind := by
  intro n
  induction n with
  | zero =>
    intro idx r
    exact ⟨rfl, rfl, List.Forall₂.nil, by intro a ha; cases ha⟩
  | succ k ih =>
    intro idx r
    obtain ⟨h1, h2, h3, h4⟩ := ih (idx + 1) (place_object E rule size_m r).2
    refine ⟨by simpa [placeLoop] using h1, by simpa [placeLoop] using h2, ?_, ?_⟩
    · exact List.Forall₂.cons ⟨rfl, rfl, rfl, rfl, rfl⟩ h3
    · intro a ha
      rcases List.mem_cons.mp ha with rfl | ha
      · exact ⟨rfl, rfl⟩
      · exact h4 a ha

theorem placeAllRules_spec (E : ExternalFns) (size_m : ℚ) :
    ∀ (rules : List ObjectPlacementRule) (idx : ℕ) (r : Rng),
      (placeAllRules E size_m rules idx r).1.length =
          (rules.map (fun ru => ru.count)).sum ∧
        (placeAllRules E size_m rules idx r).2.1.length =
          (rules.map (fun ru => ru.count)).sum ∧
        List.Forall₂ recordAgrees (placeAllRules E size_m rules idx r).1
          (placeAllRules E size_m rules idx r).2.1 ∧
        ∀ a ∈ (placeAllRules E size_m rules idx r).1,
          a.material = structureMaterial a.kind := by
  intro rules
  induction rules with
  | nil =>
    intro idx r
    exact ⟨rfl, rfl, List.Forall₂.nil, by intro a ha; cases ha⟩
  | cons rule rest ih =>
    intro idx r
    obtain ⟨g1, g2, g3, g4⟩ := placeLoop_spec E rule size_m rule.count idx r
    obtain ⟨h1, h2, h3, h4⟩ := ih (idx + rule.count)
      (placeLoop E rule size_m rule.count idx r).2.2
    refine ⟨?_, ?_, ?_, ?_⟩
    · simp [placeAllRules, g1, h1]
    · simp [placeAllRules, g2, h2]
    · exact List.rel_append g3 h3
    · intro a ha
      rcases List.mem_append.mp ha with ha | ha
      · rw [(g4 a ha).1]; exact (g4 a ha).2
      · exact h4 a ha

/-- C8: the placement pass of `build` emits, per placed instance, exactly one
mesh asset and exactly one layout record agreeing with it on name, position,
scale, kind and material; both lists have length equal to the sum of the
rules' counts; every asset's material is `"metal"` for the tower-like kinds
(`tower`, `spire`, `hub`) and `"concrete"` otherwise; and `build` stores
exactly these records in its layout, with the asset segment of its mesh list
being exactly the placed assets (after the leading terrain mesh). -/
theorem placement_records_agree (E : ExternalFns) (res : ℕ)
    (schema : WorldSchema) (seed : Option ℤ) :
    (build E res schema seed).layout.objects =
        (placeAllRules E (schema.scale_km * 1000) schema.object_rules 0
          ⟨effectiveSeed seed schema.heightmap.seed, 0⟩).2.1 ∧
      ((build E res schema seed).meshes.drop 1).take
          ((schema.object_rules.map (fun ru => ru.count)).sum) =
        (placeAllRules E (schema.scale_km * 1000) schema.object_rules 0
          ⟨effectiveSeed seed schema.heightmap.seed, 0⟩).1 ∧
      (build E res schema seed).layout.objects.length =
        (schema.object_rules.map (fun ru => ru.count)).sum ∧
      List.Forall₂ recordAgrees
        (placeAllRules E (schema.scale_km * 1000) schema.object_rules 0
          ⟨effectiveSeed seed schema.heightmap.seed, 0⟩).1
        (build E res schema seed).layout.objects ∧
      ∀ o ∈ (build E res schema seed).layout.objects,
        o.material = structureMaterial o.kind := by
  obtain ⟨h1, h2, h3, h4⟩ := placeAllRules_spec E (schema.scale_km * 1000)
    schema.object_rules 0 ⟨effectiveSeed seed schema.heightmap.seed, 0⟩
  refine ⟨rfl, ?_, h2, h3, ?_⟩
  · rw [← h1]
    have hdrop : List.drop 1 (build E res schema seed).meshes =
        (placeAllRules E (schema.scale_km * 1000) schema.object_rules 0
          ⟨effectiveSeed seed schema.heightmap.seed, 0⟩).1 ++
          (schema.splines.map (fun s => build_spline_mesh E s) ++
            (scatter_vegetation E schema
              (carveAll E schema.scale_km res schema.splines
                (generate_heightmap E schema res)) res
              (placeAllRules E (schema.scale_km * 1000) schema.object_rules 0
                ⟨effectiveSeed seed schema.heightmap.seed, 0⟩).2.2).1) := by
      simp [build]
    rw [hdrop]
    exact List.take_left _ _
  · intro o ho
    obtain ⟨a, ha, hrel⟩ := forall₂_mem_right h3 o ho
    rw [hrel.2.2.2.2, hrel.2.2.2.1]
    exact h4 a ha

/-- Witness for C8: the per-instance asset/record agreement instantiated on
`schemaW` (one tower rule, count 2). -/
theorem placement_records_agree_witness :
    (build Ew 2 schemaW (some 5)).layout.objects =
        (placeAllRules Ew (schemaW.scale_km * 1000) schemaW.object_rules 0
          ⟨effectiveSeed (some 5) schemaW.heightmap.seed, 0⟩).2.1 ∧
      ((build Ew 2 schemaW (some 5)).meshes.drop 1).take
          ((schemaW.object_rules.map (fun ru => ru.count)).sum) =
        (placeAllRules Ew (schemaW.scale_km * 1000) schemaW.object_rules 0
          ⟨effectiveSeed (some 5) schemaW.heightmap.seed, 0⟩).1 ∧
      (build Ew 2 schemaW (some 5)).layout.objects.length =
        (schemaW.object_rules.map (fun ru => ru.count)).sum ∧
      List.Forall₂ recordAgrees
        (placeAllRules Ew (schemaW.scale_km * 1000) schemaW.object_rules 0
          ⟨effectiveSeed (some 5) schemaW.heightmap.seed, 0⟩).1
        (build Ew 2 schemaW (some 5)).layout.objects ∧
      ∀ o ∈ (build Ew 2 schemaW (some 5)).layout.objects,
        o.material = structureMaterial o.kind :=
  placement_records_agree Ew 2 schemaW (some 5)

/-! ## C7: configuration validation
(`__init__`, lines 43–44; `_generate_heightmap`, line 49) -/

/-- `ProceduralEngine.__init__` (lines 43–44): the engine configuration is
just the stored grid resolution. -/
structure EngineConfig where
  grid_resolution : ℤ

/-- The constructor stores the given resolution unchanged — no validation,
no flooring (`self.grid_resolution = grid_resolution`). -/
def engineInit (grid_resolution : ℤ) : EngineConfig := ⟨grid_resolution⟩

/-- The spacing computation `step = size / (self.grid_resolution - 1)`
(line 49), the first grid computation `build` reaches, with Python's
`ZeroDivisionError` on a zero divisor made explicit. -/
def stepChecked (size : ℚ) (grid_resolution : ℤ) : Except String ℚ :=
  if grid_resolution - 1 = 0 then
    .error "ZeroDivisionError: float division by zero"
  else .ok (size / ((grid_resolution : ℚ) - 1))

/-- `_generate_heightmap` as a fallible computation, with every error path
of the source in source order: resolution 1 raises `ZeroDivisionError` at the
spacing computation (line 49); a negative resolution then raises `ValueError`
at `np.zeros((res, res))` (line 50); resolution 0 allocates an empty grid,
the sampling loops run zero iterations, and `hm.min()` on the zero-size array
raises `ValueError` (line 69); every resolution ≥ 2 proceeds as the total
model `generate_heightmap`. -/
def generate_heightmap_checked (E : ExternalFns) (schema : WorldSchema)
    (cfg : EngineConfig) : Except String (ℕ → ℕ → ℚ) :=
  match stepChecked (schema.scale_km * 1000) cfg.grid_resolution with
  | .error e => .error e
  | .ok _ =>
      if cfg.grid_resolution < 0 then
        .error "ValueError: negative dimensions are not allowed"
      else if cfg.grid_resolution = 0 then
        .error "ValueError: zero-size array to reduction operation minimum which has no identity"
      else .ok (generate_heightmap E schema cfg.grid_resolution.toNat)

/-- Counterexample to C7: a grid resolution of 1 is neither rejected nor
floored to ≥ 2 — the constructor stores 1 unchanged — and the build then
reaches the spacing computation inside heightmap generation, which divides by
zero mid-build; there is no fail-fast validation before grid work begins. -/
theorem resolution_one_not_rejected :
    engineInit 1 = EngineConfig.mk 1 ∧
      ¬ 2 ≤ (engineInit 1).grid_resolution ∧
      generate_heightmap_checked Ew schemaW (engineInit 1) =
        .error "ZeroDivisionError: float division by zero" := by
  refine ⟨rfl, by decide, ?_⟩
  simp [generate_heightmap_checked, stepChecked, engineInit]

/-- C7 amended: the engine performs no configuration validation at all — the
constructor stores any grid resolution unchanged (1 included), and an invalid
resolution fails mid-build inside heightmap generation rather than being
rejected or floored before grid work begins: resolution 1 with a division by
zero in the spacing computation, negative resolutions with numpy's
negative-dimensions `ValueError` at the grid allocation, resolution 0 with
numpy's zero-size-array `ValueError` at the `min()` reduction; every
resolution ≥ 2 completes heightmap generation. -/
theorem resolution_unvalidated (r : ℤ) (E : ExternalFns)
    (schema : WorldSchema) :
    engineInit r = EngineConfig.mk r ∧
      (r = 1 → generate_heightmap_checked E schema (engineInit r) =
        .error "ZeroDivisionError: float division by zero") ∧
      (r < 0 → generate_heightmap_checked E schema (engineInit r) =
        .error "ValueError: negative dimensions are not allowed") ∧
      (r = 0 → generate_heightmap_checked E schema (engineInit r) =
        .error "ValueError: zero-size array to reduction operation minimum which has no identity") ∧
      (2 ≤ r → generate_heightmap_checked E schema (engineInit r) =
        .ok (generate_heightmap E schema r.toNat)) := by
  refine ⟨rfl, fun hr => ?_, fun hr => ?_, fun hr => ?_, fun hr => ?_⟩
  · subst hr
    simp [generate_heightmap_checked, stepChecked, engineInit]
  · have hne : ¬ r - 1 = 0 := by omega
    simp [generate_heightmap_checked, stepChecked, engineInit, hne, hr]
  · subst hr
    simp [generate_heightmap_checked, stepChecked, engineInit]
  · have hne : ¬ r - 1 = 0 := by omega
    have hneg : ¬ r < 0 := by omega
    have hz : ¬ r = 0 := by omega
    simp [generate_heightmap_checked, stepChecked, engineInit, hne, hneg, hz]

/-- Witness for C7's amended statement: instantiated at resolutions 1
(division by zero), -3 (negative dimensions), 0 (zero-size reduction) and
220 (the source default, which completes). -/
theorem resolution_unvalidated_witness :
    (engineInit 1 = EngineConfig.mk 1 ∧
        ((1 : ℤ) = 1 → generate_heightmap_checked Ew schemaW (engineInit 1) =
          .error "ZeroDivisionError: float division by zero") ∧
        ((1 : ℤ) < 0 → generate_heightmap_checked Ew schemaW (engineInit 1) =
          .error "ValueError: negative dimensions are not allowed") ∧
        ((1 : ℤ) = 0 → generate_heightmap_checked Ew schemaW (engineInit 1) =
          .error "ValueError: zero-size array to reduction operation minimum which has no identity") ∧
        ((2 : ℤ) ≤ 1 → generate_heightmap_checked Ew schemaW (engineInit 1) =
          .ok (generate_heightmap Ew schemaW (Int.toNat 1)))) ∧
      (engineInit (-3) = EngineConfig.mk (-3) ∧
        ((-3 : ℤ) = 1 → generate_heightmap_checked Ew schemaW (engineInit (-3)) =
          .error "ZeroDivisionError: float division by zero") ∧
        ((-3 : ℤ) < 0 → generate_heightmap_checked Ew schemaW (engineInit (-3)) =
          .error "ValueError: negative dimensions are not allowed") ∧
        ((-3 : ℤ) = 0 → generate_heightmap_checked Ew schemaW (engineInit (-3)) =
          .error "ValueError: zero-size array to reduction operation minimum which has no identity") ∧
        ((2 : ℤ) ≤ -3 → generate_heightmap_checked Ew schemaW (engineInit (-3)) =
          .ok (generate_heightmap Ew schemaW (Int.toNat (-3))))) ∧
      (engineInit 0 = EngineConfig.mk 0 ∧
        ((0 : ℤ) = 1 → generate_heightmap_checked Ew schemaW (engineInit 0) =
          .error "ZeroDivisionError: float division by zero") ∧
        ((0 : ℤ) < 0 → generate_heightmap_checked Ew schemaW (engineInit 0) =
          .error "ValueError: negative dimensions are not allowed") ∧
        ((0 : ℤ) = 0 → generate_heightmap_checked Ew schemaW (engineInit 0) =
          .error "ValueError: zero-size array to reduction operation minimum which has no identity") ∧
        ((2 : ℤ) ≤ 0 → generate_heightmap_checked Ew schemaW (engineInit 0) =
          .ok (generate_heightmap Ew schemaW (Int.toNat 0)))) ∧
      (engineInit 220 = EngineConfig.mk 220 ∧
        ((220 : ℤ) = 1 → generate_heightmap_checked Ew schemaW (engineInit 220) =
          .error "ZeroDivisionError: float division by zero") ∧
        ((220 : ℤ) < 0 → generate_heightmap_checked Ew schemaW (engineInit 220) =
          .error "ValueError: negative dimensions are not allowed") ∧
        ((220 : ℤ) = 0 → generate_heightmap_checked Ew schemaW (engineInit 220) =
          .error "ValueError: zero-size array to reduction operation minimum which has no identity") ∧
        ((2 : ℤ) ≤ 220 → generate_heightmap_checked Ew schemaW (engineInit 220) =
          .ok (generate_heightmap Ew schemaW (Int.toNat 220)))) :=
  ⟨resolution_unvalidated 1 Ew schemaW, resolution_unvalidated (-3) Ew schemaW,
    resolution_unvalidated 0 Ew schemaW, resolution_unvalidated 220 Ew schemaW⟩

/-! ## C9: the spline ribbon mesh -/

/-- Squared Euclidean distance between two mesh vertices. -/
def distSq (a b : Vec3) : ℚ :=
  (a.1 - b.1) ^ 2 + (a.2.1 - b.2.1) ^ 2 + (a.2.2 - b.2.2) ^ 2

/-- C9 amended: the ribbon mesher resamples with
`samples = max(12, int(length/6)) ≥ 12` steps, emits two vertices per sample
(`2*(samples+1)` in all) and a quad strip of `2*samples` triangles; at each
sample the left and right vertices are offset along the perpendicular of the
difference vector (forward at sample 0, backward later) normalized by
`sqrt(dx²+dz²) + 1e-6`, so the squared left-to-right width equals
`(width * ℓ/(ℓ + 1e-6))²` where `ℓ = sqrt(dx²+dz²)` — slightly LESS than
`width²` whenever `ℓ, width > 0`, not equal to it.  The hypotheses fix `lv`
as the value `math.sqrt` returns on the difference vector (`hs`) and state
its defining property (`hlv`). -/
theorem ribbon_geometry (E : ExternalFns) (spline : SplineRule) (idx : ℕ)
    (lv : ℚ)
    (hs : E.sqrtf ((diffAt (splineCoords E spline) idx).1 *
            (diffAt (splineCoords E spline) idx).1 +
          (diffAt (splineCoords E spline) idx).2 *
            (diffAt (splineCoords E spline) idx).2) = lv)
    (hlv : lv * lv =
        (diffAt (splineCoords E spline) idx).1 *
            (diffAt (splineCoords E spline) idx).1 +
          (diffAt (splineCoords E spline) idx).2 *
            (diffAt (splineCoords E spline) idx).2) :
    12 ≤ splineSampleCount E spline ∧
      (splineVertices E spline).length = 2 * (splineSampleCount E spline + 1) ∧
      (splineFaces (splineVertices E spline).length).length =
        2 * splineSampleCount E spline ∧
      distSq (leftVertexAt E (spline.width * (1 / 2)) (splineCoords E spline) idx)
          (rightVertexAt E (spline.width * (1 / 2)) (splineCoords E spline) idx) =
        (spline.width * (lv / (lv + 1 / 1000000))) ^ 2 := by
  have hclen : (splineCoords E spline).length = splineSampleCount E spline + 1 := by
    simp only [splineCoords]
    rw [List.length_map, List.length_range]
  have hvlen : (splineVertices E spline).length =
      2 * (splineSampleCount E spline + 1) := by
    unfold splineVertices
    rw [length_flatMap_const _ _ 2 (fun a => by simp)]
    rw [List.length_range, hclen]
    ring
  refine ⟨le_max_left _ _, hvlen, ?_, ?_⟩
  · unfold splineFaces
    rw [length_flatMap_const _ _ 2 (fun a => by simp), List.length_range, hvlen]
    omega
  · simp only [distSq, leftVertexAt, rightVertexAt, perpAt, hs]
    linear_combination (-((spline.width / (lv + 1 / 1000000)) ^ 2)) * hlv

/-- External functions for the C9 concrete instances: `sqrtf` returns the
exact square roots of the only two values the example reaches (36 and 1/4) —
precisely the values `math.sqrt` yields there. -/
def Ecex : ExternalFns :=
  { Ew with sqrtf := fun q => if q = 36 then 6 else if q = 1 / 4 then 1 / 2 else 0 }

/-- A concrete straight road spline of length 6 and width 2 (all fields
inside the pydantic bounds). -/
def splineCex : SplineRule where
  name := "service_road"
  kind := "road"
  control_points := [(0, 0, 0), (6, 0, 0)]
  width := 2
  depth := 1
  material := "asphalt"

theorem cex_polyLen : polyLen Ecex (projXZ splineCex) = 6 := by
  have hproj : projXZ splineCex = [(0, 0), (6, 0)] := rfl
  rw [hproj]
  norm_num [polyLen, segLen, Ecex, Ew]

theorem cex_count : splineSampleCount Ecex splineCex = 12 := by
  rw [splineSampleCount, cex_polyLen]
  norm_num

theorem cex_clen : (splineCoords Ecex splineCex).length = 13 := by
  simp only [splineCoords]
  rw [List.length_map, List.length_range, cex_count]

theorem cex_c0 : (splineCoords Ecex splineCex).getD 0 (0, 0) = (0, 0) := by
  simp only [splineCoords, cex_polyLen, cex_count]
  rw [List.getD_eq_getElem?_getD, List.getElem?_map,
    List.getElem?_range (by norm_num)]
  norm_num [interpWalk, segLen, projXZ, splineCex, Ecex, Ew]

theorem cex_c1 : (splineCoords Ecex splineCex).getD 1 (0, 0) = (1 / 2, 0) := by
  simp only [splineCoords, cex_polyLen, cex_count]
  rw [List.getD_eq_getElem?_getD, List.getElem?_map,
    List.getElem?_range (by norm_num)]
  norm_num [interpWalk, segLen, projXZ, splineCex, Ecex, Ew]

theorem cex_diff : diffAt (splineCoords Ecex splineCex) 0 = (1 / 2, 0) := by
  rw [diffAt, if_pos rfl, cex_c0, cex_c1]
  norm_num

theorem cex_perp :
    perpAt Ecex (splineCoords Ecex splineCex) 0 = (0, 500000 / 500001) := by
  simp only [perpAt, cex_diff]
  norm_num [Ecex, Ew]

theorem cex_left :
    leftVertexAt Ecex (splineCex.width * (1 / 2)) (splineCoords Ecex splineCex) 0 =
      (0, 0, 500000 / 500001) := by
  rw [leftVertexAt, cex_perp, cex_c0]
  norm_num [splineCex]

theorem cex_right :
    rightVertexAt Ecex (splineCex.width * (1 / 2)) (splineCoords Ecex splineCex) 0 =
      (0, 0, -(500000 / 500001)) := by
  rw [rightVertexAt, cex_perp, cex_c0]
  norm_num [splineCex]

/-- Counterexample to C9: on a straight road spline of length 6 and width 2,
the first two ribbon vertices are the left/right offsets at sample 0, and
their squared distance is `(1000000/500001)²`, NOT `width² = 4`: the
perpendicular is normalized by `sqrt(dx²+dz²) + 1e-6`, so the ribbon's total
width is `width · ℓ/(ℓ + 1e-6) = 1000000/500001 ≈ 1.999996`, strictly less
than `spline.width = 2`. -/
theorem ribbon_width_cex :
    (splineVertices Ecex splineCex).take 2 =
        [leftVertexAt Ecex (splineCex.width * (1 / 2)) (splineCoords Ecex splineCex) 0,
         rightVertexAt Ecex (splineCex.width * (1 / 2)) (splineCoords Ecex splineCex) 0] ∧
      distSq
          (leftVertexAt Ecex (splineCex.width * (1 / 2)) (splineCoords Ecex splineCex) 0)
          (rightVertexAt Ecex (splineCex.width * (1 / 2)) (splineCoords Ecex splineCex) 0) =
        (1000000 / 500001) ^ 2 ∧
      distSq
          (leftVertexAt Ecex (splineCex.width * (1 / 2)) (splineCoords Ecex splineCex) 0)
          (rightVertexAt Ecex (splineCex.width * (1 / 2)) (splineCoords Ecex splineCex) 0) ≠
        splineCex.width ^ 2 := by
  refine ⟨?_, ?_, ?_⟩
  · simp only [splineVertices]
    rw [cex_clen]
    have hr13 : List.range 13 = [0, 1, 2, 3, 4, 5, 6, 7, 8, 9, 10, 11, 12] := rfl
    rw [hr13]
    simp [List.flatMap_cons]
  · rw [cex_left, cex_right]
    norm_num [distSq]
  · rw [cex_left, cex_right]
    norm_num [distSq, splineCex]

/-- Witness for C9's amended statement: instantiated on the concrete road
spline at sample 0, where `ℓ = 1/2`, hypotheses discharged concretely. -/
theorem ribbon_geometry_witness :
    (Ecex.sqrtf ((diffAt (splineCoords Ecex splineCex) 0).1 *
            (diffAt (splineCoords Ecex splineCex) 0).1 +
          (diffAt (splineCoords Ecex splineCex) 0).2 *
            (diffAt (splineCoords Ecex splineCex) 0).2) = 1 / 2 ∧
        (1 / 2 : ℚ) * (1 / 2) =
          (diffAt (splineCoords Ecex splineCex) 0).1 *
              (diffAt (splineCoords Ecex splineCex) 0).1 +
            (diffAt (splineCoords Ecex splineCex) 0).2 *
              (diffAt (splineCoords Ecex splineCex) 0).2) ∧
      (12 ≤ splineSampleCount Ecex splineCex ∧
        (splineVertices Ecex splineCex).length =
          2 * (splineSampleCount Ecex splineCex + 1) ∧
        (splineFaces (splineVertices Ecex splineCex).length).length =
          2 * splineSampleCount Ecex splineCex ∧
        distSq
            (leftVertexAt Ecex (splineCex.width * (1 / 2))
              (splineCoords Ecex splineCex) 0)
            (rightVertexAt Ecex (splineCex.width * (1 / 2))
              (splineCoords Ecex splineCex) 0) =
          (splineCex.width * ((1 / 2) / (1 / 2 + 1 / 1000000))) ^ 2) :=
  ⟨⟨by rw [cex_diff]; norm_num [Ecex, Ew], by rw [cex_diff]; norm_num⟩,
    ribbon_geometry Ecex splineCex 0 (1 / 2)
      (by rw [cex_diff]; norm_num [Ecex, Ew]) (by rw [cex_diff]; norm_num)⟩

end TT3D
